import Mathlib

/-!
Shallow embedding of the blog-platform backend (FastAPI + SQLAlchemy, `app/`)
and proofs about its authentication, listing, and mutation logic.

Conventions of the embedding:
* Database tables (`app/models.py`) become lists of records inside a `DB`
  structure; SQLAlchemy queries become list operations in the order the
  source applies them.
* Machine integers are `Nat` (ids, counters, timestamps) or `Int` (JWT
  clock arithmetic); `datetime.utcnow()` becomes an explicit `now` argument.
* Fallible route handlers return `Except ApiError`; the constructors mirror
  the HTTP statuses raised in the source (400/401/403/404/422/500).
* Python string normalisation (`str.strip`, `str.lower`) is modelled
  character-wise over `String.data` for the ASCII range, which is what the
  repository's tag and sort-order handling relies on.
-/

/-- Outcomes of the HTTP error taxonomy raised by the routes:
400 `validationError`, 401 `unauthenticated`, 403 `forbidden`,
404 `notFound`, 422 `unprocessable` (FastAPI schema validation),
500 `internalError` (generic exception handler). -/
inductive ApiError where
  | validationError
  | unauthenticated
  | forbidden
  | notFound
  | unprocessable
  | internalError
deriving DecidableEq, Repr

deriving instance DecidableEq for Except

/-- Boolean success test for `Except` results (an `.ok` payload). -/
def exceptOk {ε α : Type} : Except ε α → Bool
  | .ok _ => true
  | .error _ => false

/-- ASCII lower-casing of one character, as `str.lower` acts on ASCII. -/
def asciiLower (c : Char) : Char :=
  if 'A' ≤ c ∧ c ≤ 'Z' then Char.ofNat (c.toNat + 32) else c

/-- Python `str.lower()` on the ASCII range (`app` uses it for tag names
and the sort order string). -/
def pyLower (s : String) : String := ⟨s.data.map asciiLower⟩

/-- Python `str.strip()`: drop leading and trailing whitespace. -/
def pyStrip (s : String) : String :=
  ⟨((s.data.dropWhile Char.isWhitespace).reverse.dropWhile Char.isWhitespace).reverse⟩

-- ===============================
-- Data model (app/models.py)
-- ===============================

/-- Row of the `users` table. -/
structure User where
  id : Nat
  name : String
  email : String
  password : String
  is_active : Bool
  is_admin : Bool
deriving DecidableEq, Repr

/-- Row of the `categories` table. -/
structure Category where
  id : Nat
  name : String
  description : Option String
  is_active : Bool
deriving DecidableEq, Repr

/-- Row of the `tags` table (color column omitted: no claim touches it). -/
structure Tag where
  id : Nat
  name : String
deriving DecidableEq, Repr

/-- Row of the `blogs` table. -/
structure Blog where
  id : Nat
  title : String
  body : String
  excerpt : Option String
  is_published : Bool
  is_featured : Bool
  view_count : Nat
  user_id : Nat
  category_id : Option Nat
  created_at : Nat
  updated_at : Nat
  published_at : Option Nat
deriving DecidableEq, Repr

/-- Row of the `comments` table. -/
structure Comment where
  id : Nat
  content : String
  is_approved : Bool
  blog_id : Nat
  user_id : Nat
  parent_id : Option Nat
deriving DecidableEq, Repr

/-- Row of the `likes` table. `likes` declares no uniqueness constraint on
`(blog_id, user_id)`; only the surrogate `id` is a primary key. -/
structure Like where
  id : Nat
  blog_id : Nat
  user_id : Nat
deriving DecidableEq, Repr

/-- The relational store: one list per table. `blog_tags` is the
association table with composite primary key `(blog_id, tag_id)`. -/
structure DB where
  users : List User
  categories : List Category
  tags : List Tag
  blogs : List Blog
  comments : List Comment
  likes : List Like
  blog_tags : List (Nat × Nat)
deriving DecidableEq, Repr

/-- Autoincrement id allocation for a freshly inserted row. -/
def next_id (ids : List Nat) : Nat := ids.foldr max 0 + 1

-- ===============================
-- Token service (app/auth.py, AuthService)
-- ===============================

/-- The process-wide configuration (app/config.py). -/
structure Settings where
  secret_key : String
  algorithm : String
  access_token_expire_minutes : Int
deriving DecidableEq, Repr

/-- A signed JWT as the jose library materialises it: the claims
(`sub`, `exp`) plus the key and algorithm it was signed with. A decode
succeeds only when key and algorithm match. -/
structure JwtToken where
  sub : Option String
  exp : Int
  key : String
  alg : String
deriving DecidableEq, Repr

/-- AuthService.create_access_token: encode `data` (its `"sub"` entry)
with `exp = now + expires_delta`, defaulting to the configured
`access_token_expire_minutes`. Times are seconds. -/
def create_access_token (s : Settings) (data_sub : Option String)
    (expires_delta : Option Int) (now : Int) : JwtToken :=
  { sub := data_sub
    exp := now + expires_delta.getD (s.access_token_expire_minutes * 60)
    key := s.secret_key
    alg := s.algorithm }

/-- jose `jwt.decode`: reject a signature/key mismatch, an algorithm not in
the allow list, or an expiry strictly in the past (`exp < now` raises
`ExpiredSignatureError`); otherwise return the claims. -/
def jwt_decode (token : JwtToken) (key : String) (algorithms : List String)
    (now : Int) : Except String JwtToken :=
  if token.key ≠ key then .error "signature verification failed"
  else if ¬ algorithms.contains token.alg then .error "invalid algorithm"
  else if token.exp < now then .error "signature has expired"
  else .ok token

/-- AuthService.verify_token: decode with the configured secret and
algorithm, then extract the `sub` claim; any `JWTError` or a missing
subject becomes the 401 credentials exception. -/
def verify_token (s : Settings) (token : JwtToken) (now : Int) :
    Except ApiError String :=
  match jwt_decode token s.secret_key [s.algorithm] now with
  | .error _ => .error .unauthenticated
  | .ok payload =>
    match payload.sub with
    | none => .error .unauthenticated
    | some email => .ok email

/-- `OAuth2PasswordBearer` dependency with its default `auto_error=True`:
a request without a bearer credential is rejected with 401 before the
handler runs. -/
def oauth2_scheme (bearer : Option JwtToken) : Except ApiError JwtToken :=
  match bearer with
  | none => .error .unauthenticated
  | some t => .ok t

/-- get_current_user: mandatory bearer token → verified email → active
user lookup; every failure is a 401. -/
def get_current_user (s : Settings) (db : DB) (bearer : Option JwtToken)
    (now : Int) : Except ApiError User := do
  let token ← oauth2_scheme bearer
  let email ← verify_token s token now
  match db.users.find? (fun u => u.email = email) with
  | none => .error .unauthenticated
  | some user =>
    if user.is_active = false then .error .unauthenticated else .ok user

-- ===============================
-- Password policy and registration (app/auth.py, app/schemas.py, app/auth_routes.py)
-- ===============================

/-- The special-character set of validate_password_strength. -/
def special_characters : List Char := "!@#$%^&*()_+-=[]\x7b\x7d|;:,.<>?".data

/-- validate_password_strength (app/auth.py): ≥8 chars, an uppercase, a
lowercase, a digit, and a special character, reported as
`(is_valid, message)`. ASCII classification stands in for Python's
Unicode `str.isupper`/`islower`/`isdigit`. -/
def validate_password_strength (password : String) : Bool × String :=
  if password.length < 8 then
    (false, "Password must be at least 8 characters long")
  else if password.data.any Char.isUpper = false then
    (false, "Password must contain at least one uppercase letter")
  else if password.data.any Char.isLower = false then
    (false, "Password must contain at least one lowercase letter")
  else if password.data.any Char.isDigit = false then
    (false, "Password must contain at least one digit")
  else if password.data.any (fun c => special_characters.contains c) = false then
    (false, "Password must contain at least one special character")
  else
    (true, "Password is strong")

/-- A parsed `UserCreate` request body. -/
structure UserCreate where
  name : String
  email : String
  password : String
deriving DecidableEq, Repr

/-- Pydantic parsing of `UserCreate` (app/schemas.py): name 2–100 chars and
non-blank after strip (the validator stores the stripped name); password
6–100 chars with an uppercase, a lowercase and a digit. A failure is
FastAPI's 422 response, modelled as `none`. `EmailStr` format checking is
not modelled (no claim depends on it). -/
def parse_user_create (name email password : String) : Option UserCreate :=
  if name.length < 2 ∨ 100 < name.length then none
  else if pyStrip name = "" then none
  else if password.length < 6 ∨ 100 < password.length then none
  else if password.data.any Char.isUpper = false then none
  else if password.data.any Char.isLower = false then none
  else if password.data.any Char.isDigit = false then none
  else some { name := pyStrip name, email := email, password := password }

/-- Stand-in for AuthService.hash_password; bcrypt itself is outside the
embedding and no claim depends on the hash value. -/
def hash_password (password : String) : String := "bcrypt$" ++ password

/-- register_user handler body (app/auth_routes.py): 400 if the email is
taken, otherwise insert the user and answer 201. Note it performs no
password check of its own beyond the schema. -/
def register_user (db : DB) (u : UserCreate) : Except ApiError (DB × String) :=
  match db.users.find? (fun x => x.email = u.email) with
  | some _ => .error .validationError
  | none =>
    let new_user : User :=
      { id := next_id (db.users.map User.id)
        name := u.name
        email := u.email
        password := hash_password u.password
        is_active := true
        is_admin := false }
    .ok ({ db with users := db.users ++ [new_user] },
         "User registered successfully")

/-- POST /auth/register end to end: schema validation (422 on failure),
then the handler. -/
def register_endpoint (db : DB) (name email password : String) :
    Except ApiError (DB × String) :=
  match parse_user_create name email password with
  | none => .error .unprocessable
  | some u => register_user db u

-- ===============================
-- Blog listing (app/blog_routes.py, get_blogs)
-- ===============================

/-- Query-side filter parameters (app/schemas.py BlogFilter). The schema
defaults are `tag_names = []` and `is_published = True`. -/
structure BlogFilter where
  category_id : Option Nat
  tag_names : List String
  is_published : Option Bool
  is_featured : Option Bool
  author_id : Option Nat
  search : Option String
deriving DecidableEq, Repr

/-- Pydantic construction of a BlogFilter from what the caller supplied:
an absent `is_published` query parameter takes the schema default `True`.
The remaining fields default to `None`/`[]` when absent. -/
def mk_blog_filter (category_id : Option Nat) (tag_names : List String)
    (is_published : Option Bool) (is_featured : Option Bool)
    (author_id : Option Nat) (search : Option String) : BlogFilter :=
  { category_id := category_id
    tag_names := tag_names
    is_published := some (is_published.getD true)
    is_featured := is_featured
    author_id := author_id
    search := search }

/-- Pagination parameters (page ≥ 1, per_page 1..100 in the schema). -/
structure PaginationParams where
  page : Nat
  per_page : Nat
deriving DecidableEq, Repr

/-- Case-insensitive substring test: `column.ilike(f"%{term}%")`. -/
def char_list_has_infix (pat : List Char) : List Char → Bool
  | [] => pat.isEmpty
  | c :: cs => pat.isPrefixOf (c :: cs) || char_list_has_infix pat cs

/-- `s ILIKE %term%`. -/
def ilike_contains (s term : String) : Bool :=
  char_list_has_infix (term.data.map asciiLower) (s.data.map asciiLower)

/-- Tags currently associated to a blog through the `blog_tags` rows. -/
def blog_tags_of (db : DB) (b : Blog) : List Tag :=
  (db.blog_tags.filter (fun p => p.1 = b.id)).flatMap
    (fun p => db.tags.filter (fun t => t.id = p.2))

/-- `if filters.category_id:` — Python truthiness skips both `None` and 0. -/
def filter_category (f : BlogFilter) (q : List Blog) : List Blog :=
  match f.category_id with
  | some c => if c ≠ 0 then q.filter (fun b => b.category_id = some c) else q
  | none => q

/-- `if filters.is_published is not None:`. -/
def filter_published (f : BlogFilter) (q : List Blog) : List Blog :=
  match f.is_published with
  | some p => q.filter (fun b => b.is_published = p)
  | none => q

/-- `if filters.is_featured is not None:`. -/
def filter_featured (f : BlogFilter) (q : List Blog) : List Blog :=
  match f.is_featured with
  | some p => q.filter (fun b => b.is_featured = p)
  | none => q

/-- `if filters.author_id:` (truthy). -/
def filter_author (f : BlogFilter) (q : List Blog) : List Blog :=
  match f.author_id with
  | some a => if a ≠ 0 then q.filter (fun b => b.user_id = a) else q
  | none => q

/-- `if filters.search:` (truthy) — ILIKE over title or body. -/
def filter_search (f : BlogFilter) (q : List Blog) : List Blog :=
  match f.search with
  | some s =>
    if s ≠ "" then
      q.filter (fun b => ilike_contains b.title s || ilike_contains b.body s)
    else q
  | none => q

/-- `if filters.tag_names:` — `query.join(Blog.tags)` then
`Tag.name.in_(tag_names)`: an inner join, producing one result row per
(blog, matching tag) pair, duplicates included. -/
def filter_tags (db : DB) (f : BlogFilter) (q : List Blog) : List Blog :=
  if f.tag_names = [] then q
  else
    q.flatMap (fun b =>
      ((blog_tags_of db b).filter (fun t => f.tag_names.contains t.name)).map
        (fun _ => b))

/-- The filter pipeline of get_blogs, in source order. -/
def apply_filters (db : DB) (f : BlogFilter) (blogs : List Blog) : List Blog :=
  filter_tags db f
    (filter_search f (filter_author f (filter_featured f
      (filter_published f (filter_category f blogs)))))

/-- The attributes `getattr(Blog, sort_by, Blog.created_at)` can resolve:
the mapped columns, the relationship attributes of the Blog model, and
the remaining class-level attributes (declarative machinery such as
`__tablename__` or `metadata`, inherited methods and dunders), which are
not columns either. -/
inductive BlogAttr where
  | id | title | body | excerpt | is_published | is_featured | view_count
  | user_id | category_id | created_at | updated_at | published_at
  | creator | category | comments | likes | tags
  | class_attr
deriving DecidableEq, Repr

/-- Only column attributes can be ordered by: `asc()`/`desc()` on a
relationship or on a class-level attribute raises (or, for a string
value like `__tablename__`, produces a label reference the query cannot
compile), and the catch-all handler turns that into a 500. -/
def BlogAttr.isColumn : BlogAttr → Bool
  | .creator | .category | .comments | .likes | .tags => false
  | .class_attr => false
  | _ => true

/-- The attribute dictionary of the Blog model, for `getattr`: the mapped
columns and relationships, then the class-level attributes the class also
exposes. The underscore-free class attributes (`metadata`, `registry`
from the declarative base, `mro` from `type`) are listed exhaustively;
of the underscored machinery (`__tablename__`, `__table__`, `__mapper__`,
the inherited dunders, SQLAlchemy internals) only representatives appear —
the rest also resolve to non-column values, and no theorem below
quantifies over names containing an underscore that are missing here. -/
def blog_attr_table : List (String × BlogAttr) :=
  [("id", .id), ("title", .title), ("body", .body), ("excerpt", .excerpt),
   ("is_published", .is_published), ("is_featured", .is_featured),
   ("view_count", .view_count), ("user_id", .user_id),
   ("category_id", .category_id), ("created_at", .created_at),
   ("updated_at", .updated_at), ("published_at", .published_at),
   ("creator", .creator), ("category", .category), ("comments", .comments),
   ("likes", .likes), ("tags", .tags),
   ("metadata", .class_attr), ("registry", .class_attr),
   ("mro", .class_attr), ("__tablename__", .class_attr),
   ("__table__", .class_attr), ("__mapper__", .class_attr),
   ("__repr__", .class_attr), ("__init__", .class_attr)]

/-- `sort_column = getattr(Blog, sort_by, Blog.created_at)`: any Blog
attribute name resolves to that attribute; anything else falls back to
`created_at`. -/
def resolve_sort_column (sort_by : String) : BlogAttr :=
  ((blog_attr_table.find? (fun p => p.1 = sort_by)).map Prod.snd).getD .created_at

/-- Ascending comparison keyed by a column attribute. `Option` columns
order their SQL NULLs first; no claim depends on that choice. The
relationship cases are unreachable (sorting on them errors first). -/
def attr_le (a : BlogAttr) (x y : Blog) : Bool :=
  match a with
  | .id => x.id ≤ y.id
  | .title => ¬ (y.title < x.title)
  | .body => ¬ (y.body < x.body)
  | .excerpt => ¬ (y.excerpt.getD "" < x.excerpt.getD "")
  | .is_published => x.is_published ≤ y.is_published
  | .is_featured => x.is_featured ≤ y.is_featured
  | .view_count => x.view_count ≤ y.view_count
  | .user_id => x.user_id ≤ y.user_id
  | .category_id => x.category_id.getD 0 ≤ y.category_id.getD 0
  | .created_at => x.created_at ≤ y.created_at
  | .updated_at => x.updated_at ≤ y.updated_at
  | .published_at => x.published_at.getD 0 ≤ y.published_at.getD 0
  | _ => true

/-- Stable insertion into a sorted list. -/
def sortedInsert (le : Blog → Blog → Bool) (b : Blog) : List Blog → List Blog
  | [] => [b]
  | x :: xs => if le b x then b :: x :: xs else x :: sortedInsert le b xs

/-- A sort standing in for the database ORDER BY. -/
def insertionSort (le : Blog → Blog → Bool) : List Blog → List Blog
  | [] => []
  | x :: xs => sortedInsert le x (insertionSort le xs)

/-- `order_by(asc(col))` / `order_by(desc(col))`; the direction string is
lower-cased and compared to "asc", anything else meaning descending. -/
def sortBlogs (a : BlogAttr) (sort_order : String) (l : List Blog) : List Blog :=
  if pyLower sort_order = "asc" then insertionSort (attr_le a) l
  else insertionSort (fun x y => attr_le a y x) l

/-- Approved-comment count of a blog. -/
def comment_count (db : DB) (blog_id : Nat) : Nat :=
  db.comments.countP (fun c => c.blog_id = blog_id && c.is_approved)

/-- Like count of a blog. -/
def like_count (db : DB) (blog_id : Nat) : Nat :=
  db.likes.countP (fun l => l.blog_id = blog_id)

/-- Whether the current caller (if any) has a like row for the blog. -/
def is_liked_by (db : DB) (user : Option User) (blog_id : Nat) : Bool :=
  match user with
  | none => false
  | some u =>
    (db.likes.find? (fun l => l.blog_id = blog_id && l.user_id = u.id)).isSome

/-- A blog annotated with the derived statistics of the responses. -/
structure BlogWithStats where
  blog : Blog
  comment_count : Nat
  like_count : Nat
  is_liked : Bool
deriving DecidableEq, Repr

/-- Pagination metadata of the list response. -/
structure PaginationResponse where
  total : Nat
  page : Nat
  per_page : Nat
  pages : Nat
  has_next : Bool
  has_prev : Bool
deriving DecidableEq, Repr

/-- The body of GET /blog/. -/
structure BlogListResponse where
  blogs : List BlogWithStats
  pagination : PaginationResponse
deriving DecidableEq, Repr

/-- The filtered query of get_blogs (before sorting and slicing); both
the page slice and `query.count()` are taken from it. -/
def listing_rows (db : DB) (filters : BlogFilter) : List Blog :=
  apply_filters db filters db.blogs

/-- The filtered query after ORDER BY. -/
def listing_sorted (db : DB) (filters : BlogFilter)
    (sort_by sort_order : String) : List Blog :=
  sortBlogs (resolve_sort_column sort_by) sort_order (listing_rows db filters)

/-- The OFFSET/LIMIT page slice
(`query.offset((page-1)*per_page).limit(per_page)`). -/
def listing_items (db : DB) (filters : BlogFilter) (sort_by sort_order : String)
    (pagination : PaginationParams) : List Blog :=
  ((listing_sorted db filters sort_by sort_order).drop
    ((pagination.page - 1) * pagination.per_page)).take pagination.per_page

/-- `pages = (total + per_page - 1) // per_page`. -/
def listing_pages (db : DB) (filters : BlogFilter)
    (pagination : PaginationParams) : Nat :=
  ((listing_rows db filters).length + pagination.per_page - 1) / pagination.per_page

/-- The per-row statistics annotation of the list response. -/
def with_stats (db : DB) (current_user : Option User) (b : Blog) :
    BlogWithStats :=
  { blog := b
    comment_count := comment_count db b.id
    like_count := like_count db b.id
    is_liked := is_liked_by db current_user b.id }

/-- get_blogs handler: filter, sort (relationship sort keys raise, caught
as 500), count the filtered query, slice the requested page, and annotate
each row with its statistics. -/
def get_blogs (db : DB) (current_user : Option User) (filters : BlogFilter)
    (pagination : PaginationParams) (sort_by sort_order : String) :
    Except ApiError BlogListResponse :=
  if (resolve_sort_column sort_by).isColumn = false then .error .internalError
  else
    .ok
      { blogs := (listing_items db filters sort_by sort_order pagination).map
          (with_stats db current_user)
        pagination :=
          { total := (listing_rows db filters).length
            page := pagination.page
            per_page := pagination.per_page
            pages := listing_pages db filters pagination
            has_next := pagination.page < listing_pages db filters pagination
            has_prev := 1 < pagination.page } }

-- ===============================
-- Single blog fetch (app/blog_routes.py, get_blog)
-- ===============================

/-- Write back one blog row. -/
def commit_blog (db : DB) (blog : Blog) : DB :=
  { db with blogs := db.blogs.map (fun b => if b.id = blog.id then blog else b) }

/-- GET /blog/\x7bblog_id\x7d. The handler's `current_user` parameter is
annotated `Optional[User]` but wired to the mandatory `get_current_user`
dependency, so the dependency resolves (or fails with 401) before the
body runs; the body then looks the blog up, increments its view counter,
commits, and assembles the statistics. -/
def get_blog (s : Settings) (db : DB) (blog_id : Nat)
    (bearer : Option JwtToken) (now : Int) :
    Except ApiError (DB × BlogWithStats) := do
  let current_user ← get_current_user s db bearer now
  match db.blogs.find? (fun b => b.id = blog_id) with
  | none => .error .notFound
  | some blog =>
    let blog := { blog with view_count := blog.view_count + 1 }
    let db := commit_blog db blog
    .ok (db,
      { blog := blog
        comment_count := comment_count db blog.id
        like_count := like_count db blog.id
        is_liked := is_liked_by db (some current_user) blog.id })

-- ===============================
-- Blog mutations (app/blog_routes.py)
-- ===============================

/-- Request body of POST /blog/ (app/schemas.py BlogCreate). -/
structure BlogCreate where
  title : String
  body : String
  excerpt : Option String := none
  category_id : Option Nat := none
  is_published : Bool := false
  is_featured : Bool := false
  tag_names : List String := []
deriving DecidableEq, Repr

/-- Request body of PUT /blog/\x7bblog_id\x7d (BlogUpdate); `none` means
the field was not supplied (`dict(exclude_unset=True)`). -/
structure BlogUpdate where
  title : Option String := none
  body : Option String := none
  excerpt : Option String := none
  category_id : Option Nat := none
  is_published : Option Bool := none
  is_featured : Option Bool := none
  tag_names : Option (List String) := none
deriving DecidableEq, Repr

/-- `excerpt = body[:297] + "..." if len(body) > 300 else body`. -/
def derive_excerpt (body : String) : String :=
  if 300 < body.length then body.take 297 ++ "..." else body

/-- The tag loop shared by create_blog and update_blog: strip and
lower-case each name, skip empties, get-or-create the tag row, and append
its id to the pending association list — with no deduplication of the
appends. -/
def process_tags (tags : List Tag) (assoc : List Nat) :
    List String → List Tag × List Nat
  | [] => (tags, assoc)
  | name :: rest =>
    let tag_name := pyLower (pyStrip name)
    if tag_name = "" then process_tags tags assoc rest
    else
      match tags.find? (fun t => t.name = tag_name) with
      | some tag => process_tags tags (assoc ++ [tag.id]) rest
      | none =>
        let tag : Tag := { id := next_id (tags.map Tag.id), name := tag_name }
        process_tags (tags ++ [tag]) (assoc ++ [tag.id]) rest

/-- Duplicate test on association rows: `blog_tags` has the composite
primary key `(blog_id, tag_id)`, so committing a duplicate pair raises
IntegrityError, which the handlers catch as a 500. -/
def hasDupPairs : List (Nat × Nat) → Bool
  | [] => false
  | p :: ps => ps.contains p || hasDupPairs ps

/-- `if blog_data.category_id:` then the category must exist (400 else). -/
def category_missing (db : DB) (category_id : Option Nat) : Prop :=
  match category_id with
  | some c => c ≠ 0 ∧ db.categories.find? (fun cat => cat.id = c) = none
  | none => False

instance (db : DB) (c : Option Nat) : Decidable (category_missing db c) := by
  unfold category_missing
  cases c <;> infer_instance

/-- POST /blog/ handler: validate the category, derive the excerpt when
absent or empty, insert the blog (published_at stamped iff published),
run the tag loop, and commit — the commit fails with 500 when the pending
association rows violate the `blog_tags` primary key. -/
def create_blog (db : DB) (blog_data : BlogCreate) (current_user : User)
    (now : Nat) : Except ApiError (DB × Blog) :=
  if category_missing db blog_data.category_id then .error .validationError
  else
    let excerpt :=
      match blog_data.excerpt with
      | some e => if e = "" then derive_excerpt blog_data.body else e
      | none => derive_excerpt blog_data.body
    let new_blog : Blog :=
      { id := next_id (db.blogs.map Blog.id)
        title := blog_data.title
        body := blog_data.body
        excerpt := some excerpt
        is_published := blog_data.is_published
        is_featured := blog_data.is_featured
        view_count := 0
        user_id := current_user.id
        category_id := blog_data.category_id
        created_at := now
        updated_at := now
        published_at := if blog_data.is_published then some now else none }
    let processed := process_tags db.tags [] blog_data.tag_names
    let pairs := processed.2.map (fun tid => (new_blog.id, tid))
    if hasDupPairs (db.blog_tags ++ pairs) then .error .internalError
    else
      .ok ({ db with
              blogs := db.blogs ++ [new_blog]
              tags := processed.1
              blog_tags := db.blog_tags ++ pairs },
           new_blog)

/-- The field part of update_blog: the publish-state transition (set
`published_at` once on a transition to published — `not blog.published_at`
is true exactly on `None`, a datetime being always truthy — and clear it
on unpublish), then the plain `setattr` loop over the supplied fields. -/
def apply_update (blog : Blog) (upd : BlogUpdate) (now : Nat) : Blog :=
  let blog :=
    match upd.is_published with
    | some p =>
      if p = true ∧ blog.published_at = none then
        { blog with published_at := some now }
      else if p = false then { blog with published_at := none }
      else blog
    | none => blog
  { blog with
    title := upd.title.getD blog.title
    body := upd.body.getD blog.body
    excerpt := match upd.excerpt with | some e => some e | none => blog.excerpt
    category_id :=
      match upd.category_id with | some c => some c | none => blog.category_id
    is_published := upd.is_published.getD blog.is_published
    is_featured := upd.is_featured.getD blog.is_featured }

/-- PUT /blog/\x7bblog_id\x7d handler: 404 on an unknown id, 403 unless
the caller owns the blog or is an admin, 400 on a bad category reference,
then the field updates; a supplied `tag_names` replaces the whole tag set
(clear then re-run the tag loop; duplicate pending rows again commit-fail
as 500). An error leaves the database unchanged (rollback). -/
def update_blog (db : DB) (blog_id : Nat) (blog_data : BlogUpdate)
    (current_user : User) (now : Nat) : Except ApiError (DB × Blog) :=
  match db.blogs.find? (fun b => b.id = blog_id) with
  | none => .error .notFound
  | some blog =>
    if blog.user_id ≠ current_user.id ∧ current_user.is_admin = false then
      .error .forbidden
    else if category_missing db blog_data.category_id then
      .error .validationError
    else
      let blog := apply_update blog blog_data now
      match blog_data.tag_names with
      | none => .ok (commit_blog db blog, blog)
      | some names =>
        let cleared := db.blog_tags.filter (fun p => p.1 ≠ blog.id)
        let processed := process_tags db.tags [] names
        let pairs := processed.2.map (fun tid => (blog.id, tid))
        if hasDupPairs (cleared ++ pairs) then .error .internalError
        else
          .ok ({ commit_blog db blog with
                  tags := processed.1
                  blog_tags := cleared ++ pairs },
               blog)

/-- DELETE /blog/\x7bblog_id\x7d handler: 404 on an unknown id, 403 unless
owner or admin, otherwise delete the blog with its cascade (comments,
likes, tag associations). -/
def delete_blog (db : DB) (blog_id : Nat) (current_user : User) :
    Except ApiError (DB × String) :=
  match db.blogs.find? (fun b => b.id = blog_id) with
  | none => .error .notFound
  | some blog =>
    if blog.user_id ≠ current_user.id ∧ current_user.is_admin = false then
      .error .forbidden
    else
      .ok ({ db with
              blogs := db.blogs.filter (fun b => b.id ≠ blog.id)
              comments := db.comments.filter (fun c => c.blog_id ≠ blog.id)
              likes := db.likes.filter (fun l => l.blog_id ≠ blog.id)
              blog_tags := db.blog_tags.filter (fun p => p.1 ≠ blog.id) },
           "Blog deleted successfully")

/-- POST /blog/\x7bblog_id\x7d/like handler: 404 on an unknown id; if a
like row of this caller exists, delete that row, else insert a fresh one. -/
def toggle_blog_like (db : DB) (blog_id : Nat) (current_user : User) :
    Except ApiError (DB × String) :=
  match db.blogs.find? (fun b => b.id = blog_id) with
  | none => .error .notFound
  | some _ =>
    match db.likes.find? (fun l => l.blog_id = blog_id && l.user_id = current_user.id) with
    | some existing_like =>
      .ok ({ db with likes := db.likes.filter (fun l => l.id ≠ existing_like.id) },
           "Like removed")
    | none =>
      let new_like : Like :=
        { id := next_id (db.likes.map Like.id)
          blog_id := blog_id
          user_id := current_user.id }
      .ok ({ db with likes := db.likes ++ [new_like] }, "Blog liked")

/-- Like state of one (blog, user) pair, as the handlers query it. -/
def user_likes (db : DB) (blog_id : Nat) (u : User) : Bool :=
  (db.likes.find? (fun l => l.blog_id = blog_id && l.user_id = u.id)).isSome

-- ===============================
-- Concrete fixtures
-- ===============================

/-- A configuration instance for concrete evaluations. -/
def sampleSettings : Settings := ⟨"secret", "HS256", 30⟩

/-- A registered, active, non-admin user. -/
def alice : User := ⟨1, "Alice", "alice@x.com", "bcrypt$Passw0rd!", true, false⟩

/-- A second active, non-admin user. -/
def bob : User := ⟨2, "Bob", "bob@x.com", "bcrypt$Passw0rd!", true, false⟩

/-- An active admin user. -/
def carol : User := ⟨3, "Carol", "carol@x.com", "bcrypt$Passw0rd!", true, true⟩

/-- A published blog owned by alice, created late. -/
def blogX : Blog :=
  { id := 1, title := "Hello World"
    body := "A body comfortably longer than the fifty characters the schema wants."
    excerpt := some "hi", is_published := true, is_featured := false
    view_count := 0, user_id := 1, category_id := none
    created_at := 10, updated_at := 10, published_at := some 10 }

/-- A published blog owned by alice, created early. -/
def blogY : Blog :=
  { id := 2, title := "Second post"
    body := "Another body comfortably longer than the fifty characters required."
    excerpt := some "hey", is_published := true, is_featured := false
    view_count := 0, user_id := 1, category_id := none
    created_at := 5, updated_at := 5, published_at := some 5 }

/-- An unpublished draft owned by alice. -/
def blogZ : Blog :=
  { id := 3, title := "Hidden draft"
    body := "A draft body comfortably longer than the fifty characters required."
    excerpt := some "ho", is_published := false, is_featured := false
    view_count := 0, user_id := 1, category_id := none
    created_at := 7, updated_at := 7, published_at := none }

/-- The empty database. -/
def emptyDB : DB := ⟨[], [], [], [], [], [], []⟩

/-- Three users and two published blogs. -/
def dbXY : DB := ⟨[alice, bob, carol], [], [], [blogX, blogY], [], [], []⟩

/-- The filter a caller gets by supplying no query parameters. -/
def default_filter : BlogFilter := mk_blog_filter none [] none none none none

/-- One user and no content yet. -/
def dbA : DB := ⟨[alice], [], [], [], [], [], []⟩

/-- The blog-creation payload of the duplicate-tag scenario. -/
def bdTags : BlogCreate :=
  { title := "Tagged post"
    body := "This body is certainly longer than fifty characters, honestly."
    excerpt := some "short"
    tag_names := ["Go", " go ", "Rust"] }

/-- The response GET /blog/ computes on `dbXY` with the default filter,
page 1, per_page 10, newest first. -/
def respXY : BlogListResponse :=
  { blogs := [⟨blogX, 0, 0, false⟩, ⟨blogY, 0, 0, false⟩]
    pagination :=
      { total := 2, page := 1, per_page := 10, pages := 1
        has_next := false, has_prev := false } }

-- ===============================
-- C1: anonymous GET /blog/\x7bid\x7d
-- ===============================

/-- C1: the claim says an anonymous `GET /blog/\x7bid\x7d` succeeds with
`is_liked = false` and bumps the view counter. The code wires the
handler's `current_user` (annotated `Optional[User]`) to the mandatory
`get_current_user` dependency, whose `OAuth2PasswordBearer` scheme
rejects a missing bearer token with 401 — so every anonymous fetch,
including one of an existing blog id, is refused before the handler body
runs and no view count is incremented. -/
theorem anonymous_get_blog_unauthenticated (s : Settings) (db : DB)
    (blog_id : Nat) (now : Int) :
    get_blog s db blog_id none now = .error .unauthenticated := rfl

-- ===============================
-- C5: token round trip
-- ===============================

/-- C5: for every subject and ttl > 0, a token issued at `t₀` verifies to
its subject at any time strictly before `t₀ + ttl` and is rejected as the
401 invalid-token condition at any time strictly after `t₀ + ttl`. -/
theorem token_round_trip (s : Settings) (subject : String) (ttl t₀ t : Int)
    (httl : 0 < ttl) :
    (t < t₀ + ttl →
      verify_token s (create_access_token s (some subject) (some ttl) t₀) t
        = .ok subject) ∧
    (t₀ + ttl < t →
      verify_token s (create_access_token s (some subject) (some ttl) t₀) t
        = .error .unauthenticated) := by
  unfold verify_token create_access_token jwt_decode
  simp only [Option.getD_some]
  constructor
  · intro h
    rw [if_neg (by simp), if_neg (by simp), if_neg (by omega : ¬ (t₀ + ttl < t))]
  · intro h
    rw [if_neg (by simp), if_neg (by simp), if_pos (by omega : t₀ + ttl < t)]

/-- Concrete instance of `token_round_trip`: a 60-second token issued at 0
verifies at 30 and is rejected at 100. -/
theorem token_round_trip_witness :
    ((0 : Int) < 60) ∧
    verify_token sampleSettings
        (create_access_token sampleSettings (some "alice@x.com") (some 60) 0) 30
      = .ok "alice@x.com" ∧
    verify_token sampleSettings
        (create_access_token sampleSettings (some "alice@x.com") (some 60) 0) 100
      = .error .unauthenticated :=
  ⟨by decide,
   (token_round_trip sampleSettings "alice@x.com" 60 0 30 (by decide)).1 (by decide),
   (token_round_trip sampleSettings "alice@x.com" 60 0 100 (by decide)).2 (by decide)⟩

-- ===============================
-- C4: registration password policy
-- ===============================

/-- C4 counterexample: "Abc123" is 6 characters with no symbol, so the
claimed policy (≥8 chars with a symbol) rejects it, yet POST
/auth/register accepts it — the route only applies the schema's looser
rule and never calls validate_password_strength. -/
theorem register_weak_password_counterexample :
    (validate_password_strength "Abc123").1 = false ∧
    exceptOk (register_endpoint emptyDB "Alice" "alice@x.com" "Abc123") = true := by
  decide

/-- C4 (amended): POST /auth/register succeeds exactly when the email is
free and the request passes the schema: name 2–100 chars and non-blank,
password 6–100 chars with an uppercase, a lowercase and a digit — no
symbol requirement and no 8-character minimum. -/
theorem register_policy (db : DB) (name email password : String) :
    exceptOk (register_endpoint db name email password) = true ↔
      (2 ≤ name.length ∧ name.length ≤ 100 ∧ pyStrip name ≠ "" ∧
       6 ≤ password.length ∧ password.length ≤ 100 ∧
       password.data.any Char.isUpper = true ∧
       password.data.any Char.isLower = true ∧
       password.data.any Char.isDigit = true ∧
       ∀ u ∈ db.users, u.email ≠ email) := by
  unfold register_endpoint parse_user_create register_user
  by_cases h1 : name.length < 2 ∨ 100 < name.length
  · rw [if_pos h1]
    simp only [exceptOk]
    constructor
    · intro h; exact absurd h (by simp)
    · rintro ⟨ha, hb, -⟩; omega
  · rw [if_neg h1]
    by_cases h2 : pyStrip name = ""
    · rw [if_pos h2]
      simp only [exceptOk]
      constructor
      · intro h; exact absurd h (by simp)
      · rintro ⟨-, -, hc, -⟩; exact absurd h2 hc
    · rw [if_neg h2]
      by_cases h3 : password.length < 6 ∨ 100 < password.length
      · rw [if_pos h3]
        simp only [exceptOk]
        constructor
        · intro h; exact absurd h (by simp)
        · rintro ⟨-, -, -, hd, he, -⟩; omega
      · rw [if_neg h3]
        by_cases h4 : password.data.any Char.isUpper = false
        · rw [if_pos h4]
          simp only [exceptOk]
          constructor
          · intro h; exact absurd h (by simp)
          · rintro ⟨-, -, -, -, -, hf, -⟩; simp [hf] at h4
        · rw [if_neg h4]
          by_cases h5 : password.data.any Char.isLower = false
          · rw [if_pos h5]
            simp only [exceptOk]
            constructor
            · intro h; exact absurd h (by simp)
            · rintro ⟨-, -, -, -, -, -, hg, -⟩; simp [hg] at h5
          · rw [if_neg h5]
            by_cases h6 : password.data.any Char.isDigit = false
            · rw [if_pos h6]
              simp only [exceptOk]
              constructor
              · intro h; exact absurd h (by simp)
              · rintro ⟨-, -, -, -, -, -, -, hh, -⟩; simp [hh] at h6
            · rw [if_neg h6]
              cases hf : db.users.find? (fun x => x.email = email) with
              | some u =>
                simp only [hf, exceptOk]
                constructor
                · intro h; exact absurd h (by simp)
                · rintro ⟨-, -, -, -, -, -, -, -, hi⟩
                  have hmem := List.mem_of_find?_eq_some hf
                  have hpu := List.find?_some hf
                  simp only [decide_eq_true_eq] at hpu
                  exact absurd hpu (hi u hmem)
              | none =>
                simp only [hf, exceptOk, eq_self_iff_true, true_iff]
                refine ⟨by omega, by omega, h2, by omega, by omega, ?_, ?_, ?_, ?_⟩
                · simpa using h4
                · simpa using h5
                · simpa using h6
                · intro u hu heq
                  have := List.find?_eq_none.mp hf u hu
                  simp [heq] at this

-- ===============================
-- C6: tag normalisation at blog creation
-- ===============================

/-- Concrete instance of `register_policy`: a schema-conforming password
on a fresh store registers successfully. -/
theorem register_policy_witness :
    exceptOk (register_endpoint emptyDB "Alice" "alice@x.com" "Secret1x") = true :=
  (register_policy emptyDB "Alice" "alice@x.com" "Secret1x").mpr
    ⟨by decide, by decide, by decide, by decide, by decide, by decide,
     by decide, by decide, by decide⟩

/-- C6: the tag loop strips, lower-cases and get-or-creates as claimed,
but it does not deduplicate: for `["Go", " go ", "Rust"]` it resolves the
existing "go" tag a second time and appends its id again, so the pending
`blog_tags` rows contain `(blog, go)` twice. Committing them violates the
table's composite primary key and the request fails with the generic 500
instead of succeeding with the tag set \x7bgo, rust\x7d. -/
theorem create_blog_duplicate_tag_names_fail :
    process_tags [] [] ["Go", " go ", "Rust"]
      = ([⟨1, "go"⟩, ⟨2, "rust"⟩], [1, 1, 2]) ∧
    create_blog dbA bdTags alice 7 = .error .internalError := by
  decide

-- ===============================
-- Helper lemmas
-- ===============================

lemma le_foldr_max (x : Nat) (l : List Nat) (hx : x ∈ l) :
    x ≤ l.foldr max 0 := by
  induction l with
  | nil => cases hx
  | cons a t ih =>
    rcases List.mem_cons.mp hx with rfl | hx'
    · exact Nat.le_max_left _ _
    · exact le_trans (ih hx') (Nat.le_max_right _ _)

lemma like_id_lt_next {l : List Like} {x : Like} (hx : x ∈ l) :
    x.id < next_id (l.map Like.id) := by
  unfold next_id
  have := le_foldr_max x.id (l.map Like.id) (List.mem_map_of_mem Like.id hx)
  omega

lemma length_sortedInsert (le : Blog → Blog → Bool) (b : Blog)
    (l : List Blog) : (sortedInsert le b l).length = l.length + 1 := by
  induction l with
  | nil => rfl
  | cons x xs ih =>
    unfold sortedInsert
    split
    · simp
    · simp [ih]

lemma length_insertionSort (le : Blog → Blog → Bool) (l : List Blog) :
    (insertionSort le l).length = l.length := by
  induction l with
  | nil => rfl
  | cons x xs ih =>
    unfold insertionSort
    rw [length_sortedInsert, ih]
    rfl

lemma length_sortBlogs (a : BlogAttr) (ord : String) (l : List Blog) :
    (sortBlogs a ord l).length = l.length := by
  unfold sortBlogs
  split <;> exact length_insertionSort _ _

lemma mem_sortedInsert {le : Blog → Blog → Bool} {b : Blog} {l : List Blog}
    {x : Blog} : x ∈ sortedInsert le b l ↔ x = b ∨ x ∈ l := by
  induction l with
  | nil => simp [sortedInsert]
  | cons y ys ih =>
    unfold sortedInsert
    split
    · simp [List.mem_cons]
    · simp only [List.mem_cons, ih]
      tauto

lemma mem_insertionSort {le : Blog → Blog → Bool} {l : List Blog} {x : Blog} :
    x ∈ insertionSort le l ↔ x ∈ l := by
  induction l with
  | nil => simp [insertionSort]
  | cons y ys ih =>
    unfold insertionSort
    rw [mem_sortedInsert, ih, List.mem_cons]

lemma mem_sortBlogs {a : BlogAttr} {ord : String} {l : List Blog} {x : Blog} :
    x ∈ sortBlogs a ord l ↔ x ∈ l := by
  unfold sortBlogs
  split <;> exact mem_insertionSort

lemma two_le_countP {α : Type} (p : α → Bool) {l : List α} {x y : α}
    (hx : x ∈ l) (hy : y ∈ l) (hxy : x ≠ y)
    (hpx : p x = true) (hpy : p y = true) : 2 ≤ l.countP p := by
  induction l with
  | nil => cases hx
  | cons a t ih =>
    rw [List.countP_cons]
    rcases List.mem_cons.mp hx with rfl | hx'
    · rcases List.mem_cons.mp hy with rfl | hy'
      · exact absurd rfl hxy
      · have h1 := List.countP_pos_iff.mpr ⟨y, hy', hpy⟩
        simp only [hpx, if_pos]
        omega
    · rcases List.mem_cons.mp hy with rfl | hy'
      · have h1 := List.countP_pos_iff.mpr ⟨x, hx', hpx⟩
        simp only [hpy, if_pos]
        omega
      · have h2 := ih hx' hy'
        split <;> omega

lemma sum_chunk_lengths (per : Nat) (hper : 0 < per) :
    ∀ (n : Nat) (l : List Blog), l.length ≤ n * per →
      (Finset.range n).sum (fun i => ((l.drop (i * per)).take per).length)
        = l.length := by
  intro n
  induction n with
  | zero =>
    intro l h
    simp only [Nat.zero_mul] at h
    simp only [Finset.range_zero, Finset.sum_empty]
    omega
  | succ n ih =>
    intro l h
    rw [Finset.sum_range_succ']
    have hstep : (Finset.range n).sum
          (fun i => ((l.drop ((i + 1) * per)).take per).length)
        = (Finset.range n).sum
          (fun i => (((l.drop per).drop (i * per)).take per).length) := by
      apply Finset.sum_congr rfl
      intro i _
      rw [List.drop_drop]
      congr 2
      rw [Nat.add_mul, Nat.one_mul, Nat.add_comm]
    have hlen : (l.drop per).length ≤ n * per := by
      rw [List.length_drop]
      rw [Nat.succ_mul] at h
      generalize n * per = np at h ⊢
      omega
    rw [hstep, ih (l.drop per) hlen]
    simp only [Nat.zero_mul, List.drop_zero, List.length_drop, List.length_take]
    omega

lemma pages_spec (t per : Nat) (hper : 0 < per) :
    t ≤ ((t + per - 1) / per) * per ∧
    ∀ m : Nat, t ≤ m * per → (t + per - 1) / per ≤ m := by
  constructor
  · have h1 := Nat.div_add_mod (t + per - 1) per
    have h2 : (t + per - 1) % per < per := Nat.mod_lt _ hper
    rw [Nat.mul_comm]
    generalize hpq : per * ((t + per - 1) / per) = pq at h1 ⊢
    generalize hr : (t + per - 1) % per = r at h1 h2
    omega
  · intro m hm
    have h4 : t + per - 1 < (m + 1) * per := by
      rw [Nat.succ_mul]
      generalize m * per = mp at hm ⊢
      omega
    have h5 := (Nat.div_lt_iff_lt_mul hper).mpr h4
    omega

lemma mem_of_mem_filter_tags {db : DB} {f : BlogFilter} {q : List Blog}
    {x : Blog} (hx : x ∈ filter_tags db f q) : x ∈ q := by
  unfold filter_tags at hx
  split at hx
  · exact hx
  · rw [List.mem_flatMap] at hx
    obtain ⟨a, ha, hxa⟩ := hx
    rw [List.mem_map] at hxa
    obtain ⟨t, -, heq⟩ := hxa
    exact heq ▸ ha

lemma mem_of_mem_filter_search {f : BlogFilter} {q : List Blog} {x : Blog}
    (hx : x ∈ filter_search f q) : x ∈ q := by
  unfold filter_search at hx
  split at hx
  · split at hx
    · exact List.mem_of_mem_filter hx
    · exact hx
  · exact hx

lemma mem_of_mem_filter_author {f : BlogFilter} {q : List Blog} {x : Blog}
    (hx : x ∈ filter_author f q) : x ∈ q := by
  unfold filter_author at hx
  split at hx
  · split at hx
    · exact List.mem_of_mem_filter hx
    · exact hx
  · exact hx

lemma mem_of_mem_filter_featured {f : BlogFilter} {q : List Blog} {x : Blog}
    (hx : x ∈ filter_featured f q) : x ∈ q := by
  unfold filter_featured at hx
  split at hx
  · exact List.mem_of_mem_filter hx
  · exact hx

lemma mem_filter_published {f : BlogFilter} {q : List Blog} {x : Blog}
    {p : Bool} (hf : f.is_published = some p) (hx : x ∈ filter_published f q) :
    x.is_published = p := by
  unfold filter_published at hx
  rw [hf] at hx
  have := (List.mem_filter.mp hx).2
  simpa using this

lemma mem_apply_filters_published {db : DB} {f : BlogFilter}
    {blogs : List Blog} {x : Blog} {p : Bool} (hf : f.is_published = some p)
    (hx : x ∈ apply_filters db f blogs) : x.is_published = p := by
  unfold apply_filters at hx
  exact mem_filter_published hf
    (mem_of_mem_filter_featured
      (mem_of_mem_filter_author
        (mem_of_mem_filter_search (mem_of_mem_filter_tags hx))))

-- ===============================
-- C2: pagination consistency
-- ===============================

/-- C2: whenever GET /blog/ answers, the reported total is the size of the
filtered row set independently of the requested page, the reported pages
is the ceiling of total/per_page (it dominates total and is the least
such multiple), every page of the same query answers with the same total
and pages, and the item-list lengths over pages 1..pages sum to exactly
the total. -/
theorem pagination_consistency (db : DB) (user : Option User)
    (f : BlogFilter) (page per : Nat) (sb so : String)
    (resp : BlogListResponse) (hper : 1 ≤ per)
    (hok : get_blogs db user f ⟨page, per⟩ sb so = .ok resp) :
    resp.pagination.total = (apply_filters db f db.blogs).length ∧
    resp.pagination.total ≤ resp.pagination.pages * per ∧
    (∀ m : Nat, resp.pagination.total ≤ m * per → resp.pagination.pages ≤ m) ∧
    (∀ p' : Nat, ∃ r' : BlogListResponse,
      get_blogs db user f ⟨p', per⟩ sb so = .ok r' ∧
      r'.pagination.total = resp.pagination.total ∧
      r'.pagination.pages = resp.pagination.pages) ∧
    (Finset.range resp.pagination.pages).sum
        (fun i => ((get_blogs db user f ⟨i + 1, per⟩ sb so).toOption.map
          (fun r => r.blogs.length)).getD 0)
      = resp.pagination.total := by
  by_cases hcol : (resolve_sort_column sb).isColumn = false
  · unfold get_blogs at hok
    rw [if_pos hcol] at hok
    exact absurd hok (by simp)
  · unfold get_blogs at hok
    rw [if_neg hcol, Except.ok.injEq] at hok
    subst hok
    have hp0 : 0 < per := hper
    have hs := pages_spec (listing_rows db f).length per hp0
    refine ⟨rfl, hs.1, hs.2, ?_, ?_⟩
    · intro p'
      refine ⟨{ blogs := (listing_items db f sb so ⟨p', per⟩).map
                  (with_stats db user)
                pagination :=
                  { total := (listing_rows db f).length
                    page := p'
                    per_page := per
                    pages := listing_pages db f ⟨p', per⟩
                    has_next := decide (p' < listing_pages db f ⟨p', per⟩)
                    has_prev := decide (1 < p') } }, ?_, rfl, rfl⟩
      unfold get_blogs
      rw [if_neg hcol]
    · have hsum : ∀ i ∈ Finset.range (listing_pages db f ⟨page, per⟩),
          ((get_blogs db user f ⟨i + 1, per⟩ sb so).toOption.map
            (fun r => r.blogs.length)).getD 0
          = (((listing_sorted db f sb so).drop (i * per)).take per).length := by
        intro i _
        unfold get_blogs
        rw [if_neg hcol]
        simp only [Except.toOption, Option.map_some', Option.getD_some,
          List.length_map]
        unfold listing_items
        simp only [Nat.add_sub_cancel]
      have hlen : (listing_sorted db f sb so).length
          ≤ listing_pages db f ⟨page, per⟩ * per := by
        unfold listing_sorted
        rw [length_sortBlogs]
        exact hs.1
      calc (Finset.range (listing_pages db f ⟨page, per⟩)).sum
              (fun i => ((get_blogs db user f ⟨i + 1, per⟩ sb so).toOption.map
                (fun r => r.blogs.length)).getD 0)
          = (Finset.range (listing_pages db f ⟨page, per⟩)).sum
              (fun i => (((listing_sorted db f sb so).drop (i * per)).take per).length) :=
            Finset.sum_congr rfl hsum
        _ = (listing_sorted db f sb so).length :=
            sum_chunk_lengths per hp0 _ _ hlen
        _ = (listing_rows db f).length := by
            unfold listing_sorted
            exact length_sortBlogs _ _ _

/-- Concrete instance of `pagination_consistency` on a two-blog store. -/
theorem pagination_consistency_witness :
    1 ≤ 10 ∧
    get_blogs dbXY none default_filter ⟨1, 10⟩ "created_at" "desc" = .ok respXY ∧
    respXY.pagination.total = (apply_filters dbXY default_filter dbXY.blogs).length :=
  ⟨by decide, by decide,
   (pagination_consistency dbXY none default_filter 1 10 "created_at" "desc"
      respXY (by decide) (by decide)).1⟩

-- ===============================
-- C3: sort key resolution
-- ===============================

/-- C3 counterexample: `sort_by = "id"` is outside the claimed allow-list
\x7bcreated_at, title, view_count\x7d, yet the listing does not fall back
to creation time: `getattr` resolves it to the `id` column and the page
order of a concrete two-blog store differs from the created_at order. -/
theorem sort_key_allowlist_counterexample :
    resolve_sort_column "id" = BlogAttr.id ∧
    ("id" ∉ ["created_at", "title", "view_count"]) ∧
    BlogAttr.id ∉ [BlogAttr.created_at, BlogAttr.title, BlogAttr.view_count] ∧
    get_blogs dbXY none default_filter ⟨1, 10⟩ "id" "asc"
      ≠ get_blogs dbXY none default_filter ⟨1, 10⟩ "created_at" "asc" := by
  decide

/-- C3 (amended): the sort key is neither restricted to the three-element
allow-list nor does every unrecognized key fall back: `getattr` resolves
any attribute of the Blog model, so a mapped column name selects that
column (for example "id", as the counterexample shows), while a name
resolving to a non-column attribute — a relationship, or class machinery
such as `__tablename__` or `metadata` — makes the query raise and the
request fail with 500; only a string that names no Blog attribute at all
silently falls back to the created_at default, without erroring. The
fallback part is stated for underscore-free names, on which the modelled
attribute dictionary is exhaustive (every further attribute the Python
class inherits contains an underscore). -/
theorem sort_key_fallback (sort_by : String)
    (hs : sort_by ∉ blog_attr_table.map Prod.fst)
    (hplain : ¬ sort_by.data.contains '_') :
    resolve_sort_column sort_by = BlogAttr.created_at ∧
    (∀ (db : DB) (user : Option User) (f : BlogFilter)
      (pag : PaginationParams) (sort_order : String),
      get_blogs db user f pag sort_by sort_order
        = get_blogs db user f pag "created_at" sort_order) ∧
    (∀ (s : String) (db : DB) (user : Option User) (f : BlogFilter)
      (pag : PaginationParams) (sort_order : String),
      (resolve_sort_column s).isColumn = false →
      get_blogs db user f pag s sort_order = .error .internalError) := by
  have hfind : blog_attr_table.find? (fun p => p.1 = sort_by) = none := by
    rw [List.find?_eq_none]
    intro p hp
    simp only [decide_eq_true_eq]
    intro hcontra
    exact hs (hcontra ▸ List.mem_map_of_mem Prod.fst hp)
  have hres : resolve_sort_column sort_by = BlogAttr.created_at := by
    unfold resolve_sort_column
    rw [hfind]
    rfl
  have hres2 : resolve_sort_column "created_at" = BlogAttr.created_at := by
    decide
  refine ⟨hres, ?_, ?_⟩
  · intro db user f pag so
    unfold get_blogs listing_items listing_sorted
    rw [hres, hres2]
  · intro s db user f pag so hcol
    unfold get_blogs
    rw [if_pos hcol]

/-- Concrete instance of `sort_key_fallback`: the unknown key "bogus"
falls back to the created_at listing, while the class attribute
`__tablename__` — also outside the claimed allow-list — makes the
request fail with 500 instead. -/
theorem sort_key_fallback_witness :
    ("bogus" ∉ blog_attr_table.map Prod.fst) ∧
    resolve_sort_column "bogus" = BlogAttr.created_at ∧
    get_blogs dbXY none default_filter ⟨1, 10⟩ "bogus" "desc"
      = get_blogs dbXY none default_filter ⟨1, 10⟩ "created_at" "desc" ∧
    get_blogs dbXY none default_filter ⟨1, 10⟩ "__tablename__" "desc"
      = .error .internalError :=
  ⟨by decide, (sort_key_fallback "bogus" (by decide) (by decide)).1,
   (sort_key_fallback "bogus" (by decide) (by decide)).2.1 dbXY none
     default_filter ⟨1, 10⟩ "desc",
   (sort_key_fallback "bogus" (by decide) (by decide)).2.2 "__tablename__"
     dbXY none default_filter ⟨1, 10⟩ "desc" (by decide)⟩

-- ===============================
-- C10: implicit is_published default of the listing
-- ===============================

/-- C10: the BlogFilter schema defaults `is_published` to `True`, so a
caller who supplies no such query parameter only receives published
blogs, and an unpublished blog can appear in a listing only when the
caller explicitly passed `is_published=false`. -/
theorem listing_default_published_only (db : DB) (user : Option User)
    (cid : Option Nat) (tns : List String) (supplied feat : Option Bool)
    (aid : Option Nat) (srch : Option String) (pag : PaginationParams)
    (sb so : String) (resp : BlogListResponse)
    (hok : get_blogs db user (mk_blog_filter cid tns supplied feat aid srch)
      pag sb so = .ok resp)
    (b : BlogWithStats) (hb : b ∈ resp.blogs) :
    (supplied = none → b.blog.is_published = true) ∧
    (b.blog.is_published = false → supplied = some false) := by
  by_cases hcol : (resolve_sort_column sb).isColumn = false
  · unfold get_blogs at hok
    rw [if_pos hcol] at hok
    exact absurd hok (by simp)
  · unfold get_blogs at hok
    rw [if_neg hcol, Except.ok.injEq] at hok
    subst hok
    replace hb : b ∈ (listing_items db
        (mk_blog_filter cid tns supplied feat aid srch) sb so pag).map
        (with_stats db user) := hb
    rw [List.mem_map] at hb
    obtain ⟨blog, hmem, rfl⟩ := hb
    have hrows : blog ∈ apply_filters db
        (mk_blog_filter cid tns supplied feat aid srch) db.blogs := by
      unfold listing_items at hmem
      have h1 := List.mem_of_mem_take hmem
      have h2 := List.mem_of_mem_drop h1
      unfold listing_sorted listing_rows at h2
      exact mem_sortBlogs.mp h2
    have hpub : blog.is_published = supplied.getD true :=
      mem_apply_filters_published rfl hrows
    constructor
    · intro hsup
      show blog.is_published = true
      rw [hpub, hsup]
      rfl
    · intro hfalse
      replace hfalse : blog.is_published = false := hfalse
      rw [hpub] at hfalse
      cases hsup : supplied with
      | none => rw [hsup] at hfalse; simp at hfalse
      | some v =>
        rw [hsup] at hfalse
        simp only [Option.getD_some] at hfalse
        rw [hfalse]

/-- Concrete instance of `listing_default_published_only`: with no
is_published parameter supplied, a listed blog is published. -/
theorem listing_default_published_only_witness :
    get_blogs dbXY none (mk_blog_filter none [] none none none none)
      ⟨1, 10⟩ "created_at" "desc" = .ok respXY ∧
    (⟨blogX, 0, 0, false⟩ : BlogWithStats) ∈ respXY.blogs ∧
    blogX.is_published = true :=
  ⟨by decide, by decide,
   (listing_default_published_only dbXY none none [] none none none none
      ⟨1, 10⟩ "created_at" "desc" respXY (by decide)
      ⟨blogX, 0, 0, false⟩ (by decide)).1 rfl⟩

-- ===============================
-- C7: published_at iff published
-- ===============================

/-- C7: `published_at` is non-null iff the blog is published, and the
transition rules hold: create stamps it exactly when `is_published=true`;
a successful update applies `apply_update`, which preserves the
invariant, stamps `published_at` once on a transition to published,
leaves it untouched when the blog is already stamped (hence stable under
a no-op update with `is_published=true`), and clears it on
`is_published=false`. -/
theorem published_at_transitions :
    (∀ (db : DB) (bd : BlogCreate) (u : User) (now : Nat) (db' : DB)
        (blog : Blog), create_blog db bd u now = .ok (db', blog) →
      blog.published_at = (if bd.is_published then some now else none) ∧
      blog.published_at.isSome = blog.is_published) ∧
    (∀ (db : DB) (blog_id : Nat) (upd : BlogUpdate) (u : User) (now : Nat)
        (blog₀ : Blog) (db' : DB) (blog' : Blog),
      db.blogs.find? (fun b => b.id = blog_id) = some blog₀ →
      update_blog db blog_id upd u now = .ok (db', blog') →
      blog' = apply_update blog₀ upd now) ∧
    (∀ (blog : Blog) (upd : BlogUpdate) (now : Nat),
      blog.published_at.isSome = blog.is_published →
      (apply_update blog upd now).published_at.isSome
        = (apply_update blog upd now).is_published) ∧
    (∀ (blog : Blog) (upd : BlogUpdate) (now : Nat),
      blog.published_at = none → upd.is_published = some true →
      (apply_update blog upd now).published_at = some now) ∧
    (∀ (blog : Blog) (upd : BlogUpdate) (now : Nat) (t₀ : Nat),
      blog.published_at = some t₀ → upd.is_published = some true →
      (apply_update blog upd now).published_at = some t₀) ∧
    (∀ (blog : Blog) (upd : BlogUpdate) (now : Nat),
      upd.is_published = some false →
      (apply_update blog upd now).published_at = none) := by
  refine ⟨?_, ?_, ?_, ?_, ?_, ?_⟩
  · intro db bd u now db' blog h
    simp only [create_blog] at h
    split at h
    · exact absurd h (by simp)
    · split at h
      · exact absurd h (by simp)
      · rw [Except.ok.injEq, Prod.mk.injEq] at h
        obtain ⟨-, h2⟩ := h
        subst h2
        refine ⟨rfl, ?_⟩
        cases bd.is_published <;> rfl
  · intro db blog_id upd u now blog₀ db' blog' hfind h
    simp only [update_blog, hfind] at h
    split at h
    · exact absurd h (by simp)
    · split at h
      · exact absurd h (by simp)
      · split at h
        · rw [Except.ok.injEq, Prod.mk.injEq] at h
          exact h.2.symm
        · split at h
          · exact absurd h (by simp)
          · rw [Except.ok.injEq, Prod.mk.injEq] at h
            exact h.2.symm
  · intro blog upd now hinv
    cases hp : upd.is_published with
    | none => simpa [apply_update, hp] using hinv
    | some p =>
      cases p with
      | true =>
        by_cases hpub : blog.published_at = none
        · simp [apply_update, hp, hpub]
        · simp [apply_update, hp, hpub, Option.isSome_iff_ne_none]
      | false => simp [apply_update, hp]
  · intro blog upd now hpub hupd
    simp [apply_update, hupd, hpub]
  · intro blog upd now t₀ hpub hupd
    simp [apply_update, hupd, hpub]
  · intro blog upd now hupd
    simp [apply_update, hupd]

/-- Concrete instance of `published_at_transitions`: publishing the draft
`blogZ` at time 42 stamps `published_at := some 42`, and a second no-op
published update at time 99 keeps the stamp 42. -/
theorem published_at_transitions_witness :
    blogZ.published_at = none ∧
    (apply_update blogZ { is_published := some true } 42).published_at
      = some 42 ∧
    (apply_update (apply_update blogZ { is_published := some true } 42)
        { is_published := some true } 99).published_at = some 42 :=
  ⟨by decide,
   published_at_transitions.2.2.2.1 blogZ { is_published := some true } 42
     (by decide) rfl,
   published_at_transitions.2.2.2.2.1
     (apply_update blogZ { is_published := some true } 42)
     { is_published := some true } 99 42
     (published_at_transitions.2.2.2.1 blogZ { is_published := some true } 42
       (by decide) rfl) rfl⟩

-- ===============================
-- C9: ownership gate on update and delete
-- ===============================

/-- C9: for update and delete, an unknown blog id answers 404; an
existing blog with a caller who is neither owner nor admin answers 403
(the handler raises before any mutation, so the transaction leaves the
store unchanged); a caller who is owner or admin passes the gate and the
operation succeeds (for update: provided the payload itself is valid —
its category reference resolves and no tag rewrite is requested). -/
theorem ownership_gate (db : DB) (blog_id : Nat) (caller : User)
    (upd : BlogUpdate) (now : Nat) :
    (db.blogs.find? (fun b => b.id = blog_id) = none →
      update_blog db blog_id upd caller now = .error .notFound ∧
      delete_blog db blog_id caller = .error .notFound) ∧
    (∀ blog : Blog, db.blogs.find? (fun b => b.id = blog_id) = some blog →
      (blog.user_id ≠ caller.id → caller.is_admin = false →
        update_blog db blog_id upd caller now = .error .forbidden ∧
        delete_blog db blog_id caller = .error .forbidden) ∧
      ((blog.user_id = caller.id ∨ caller.is_admin = true) →
        exceptOk (delete_blog db blog_id caller) = true ∧
        (¬ category_missing db upd.category_id → upd.tag_names = none →
          exceptOk (update_blog db blog_id upd caller now) = true))) := by
  constructor
  · intro hnone
    refine ⟨?_, ?_⟩
    · simp only [update_blog, hnone]
    · simp only [delete_blog, hnone]
  · intro blog hfind
    constructor
    · intro hne hadm
      refine ⟨?_, ?_⟩
      · simp only [update_blog, hfind]
        rw [if_pos ⟨hne, hadm⟩]
      · simp only [delete_blog, hfind]
        rw [if_pos ⟨hne, hadm⟩]
    · intro hperm
      have hcond : ¬ (blog.user_id ≠ caller.id ∧ caller.is_admin = false) := by
        rcases hperm with h | h
        · exact fun hc => hc.1 h
        · exact fun hc => by rw [h] at hc; exact absurd hc.2 (by simp)
      constructor
      · simp only [delete_blog, hfind]
        rw [if_neg hcond]
        rfl
      · intro hcat htags
        simp only [update_blog, hfind, htags]
        rw [if_neg hcond, if_neg hcat]
        rfl

/-- Concrete instance of `ownership_gate`: bob (non-owner, non-admin) is
refused on alice's blog; carol (admin) may delete it; alice (owner) may
update it; an unknown id is not found. -/
theorem ownership_gate_witness :
    update_blog dbXY 1 {} bob 5 = .error .forbidden ∧
    delete_blog dbXY 1 bob = .error .forbidden ∧
    exceptOk (delete_blog dbXY 1 carol) = true ∧
    exceptOk (update_blog dbXY 1 {} alice 5) = true ∧
    update_blog dbXY 99 {} alice 5 = .error .notFound :=
  ⟨(((ownership_gate dbXY 1 bob {} 5).2 blogX (by decide)).1 (by decide)
      (by decide)).1,
   (((ownership_gate dbXY 1 bob {} 5).2 blogX (by decide)).1 (by decide)
      (by decide)).2,
   (((ownership_gate dbXY 1 carol {} 5).2 blogX (by decide)).2
      (Or.inr (by decide))).1,
   (((ownership_gate dbXY 1 alice {} 5).2 blogX (by decide)).2
      (Or.inl (by decide))).2 (by decide) rfl,
   ((ownership_gate dbXY 99 alice {} 5).1 (by decide)).1⟩

-- ===============================
-- C8: like toggle involution
-- ===============================

/-- The store after one toggle call; a failed call leaves it unchanged
(the handler rolls back on error). -/
def toggled (db : DB) (blog_id : Nat) (u : User) : DB :=
  match toggle_blog_like db blog_id u with
  | .ok (db', _) => db'
  | .error _ => db

lemma toggle_eval_insert {db : DB} {blog_id : Nat} {u : User} {b : Blog}
    (hfind : db.blogs.find? (fun x => x.id = blog_id) = some b)
    (hlk : db.likes.find?
      (fun l => l.blog_id = blog_id && l.user_id = u.id) = none) :
    toggle_blog_like db blog_id u
      = .ok ({ db with likes := db.likes ++
          [{ id := next_id (db.likes.map Like.id)
             blog_id := blog_id
             user_id := u.id }] }, "Blog liked") := by
  simp only [toggle_blog_like, hfind, hlk]

lemma toggle_eval_remove {db : DB} {blog_id : Nat} {u : User} {b : Blog}
    {lk : Like}
    (hfind : db.blogs.find? (fun x => x.id = blog_id) = some b)
    (hlk : db.likes.find?
      (fun l => l.blog_id = blog_id && l.user_id = u.id) = some lk) :
    toggle_blog_like db blog_id u
      = .ok ({ db with
          likes := db.likes.filter (fun l => l.id ≠ lk.id) }, "Like removed") := by
  simp only [toggle_blog_like, hfind, hlk]

lemma toggled_insert {db : DB} {blog_id : Nat} {u : User} {b : Blog}
    (hfind : db.blogs.find? (fun x => x.id = blog_id) = some b)
    (hlk : db.likes.find?
      (fun l => l.blog_id = blog_id && l.user_id = u.id) = none) :
    (toggled db blog_id u).likes = db.likes ++
      [{ id := next_id (db.likes.map Like.id)
         blog_id := blog_id
         user_id := u.id }] ∧
    (toggled db blog_id u).blogs = db.blogs := by
  have e1 := toggle_eval_insert hfind hlk
  constructor <;> simp only [toggled, e1]

lemma toggled_remove {db : DB} {blog_id : Nat} {u : User} {b : Blog}
    {lk : Like}
    (hfind : db.blogs.find? (fun x => x.id = blog_id) = some b)
    (hlk : db.likes.find?
      (fun l => l.blog_id = blog_id && l.user_id = u.id) = some lk) :
    (toggled db blog_id u).likes = db.likes.filter (fun l => l.id ≠ lk.id) ∧
    (toggled db blog_id u).blogs = db.blogs := by
  have e1 := toggle_eval_remove hfind hlk
  constructor <;> simp only [toggled, e1]

/-- C8: for an existing blog and a consistent store (at most one like row
per (user, blog) pair, as the application maintains), a toggle call
succeeds, a second toggle succeeds as well and restores the caller's like
state, and a single toggle from the unliked state increments the blog's
like count by exactly one. -/
theorem toggle_like_involution (db : DB) (blog_id : Nat) (u : User)
    (hblog : (db.blogs.find? (fun b => b.id = blog_id)).isSome = true)
    (hpair : db.likes.countP
      (fun l => l.blog_id = blog_id && l.user_id = u.id) ≤ 1) :
    exceptOk (toggle_blog_like db blog_id u) = true ∧
    exceptOk (toggle_blog_like (toggled db blog_id u) blog_id u) = true ∧
    user_likes (toggled (toggled db blog_id u) blog_id u) blog_id u
      = user_likes db blog_id u ∧
    (user_likes db blog_id u = false →
      like_count (toggled db blog_id u) blog_id = like_count db blog_id + 1) := by
  obtain ⟨blogb, hfind⟩ := Option.isSome_iff_exists.mp hblog
  cases hlk : db.likes.find?
      (fun l => l.blog_id = blog_id && l.user_id = u.id) with
  | none =>
    have e1 := toggle_eval_insert hfind hlk
    obtain ⟨hl1, hb1⟩ := toggled_insert hfind hlk
    have hfresh : ∀ l ∈ db.likes, l.id ≠ next_id (db.likes.map Like.id) := by
      intro l hl
      have := like_id_lt_next hl
      omega
    have hfind₁ : (toggled db blog_id u).blogs.find?
        (fun x => x.id = blog_id) = some blogb := by
      rw [hb1]
      exact hfind
    have hsecond : (toggled db blog_id u).likes.find?
        (fun l => l.blog_id = blog_id && l.user_id = u.id)
        = some { id := next_id (db.likes.map Like.id)
                 blog_id := blog_id
                 user_id := u.id } := by
      rw [hl1, List.find?_append, hlk]
      simp
    have e2 := toggle_eval_remove hfind₁ hsecond
    obtain ⟨hl2, -⟩ := toggled_remove hfind₁ hsecond
    rw [hl1] at hl2
    have hl2' : (toggled (toggled db blog_id u) blog_id u).likes = db.likes := by
      rw [hl2, List.filter_append]
      have h1 : db.likes.filter
          (fun l => decide
            ¬ (l.id = ({ id := next_id (db.likes.map Like.id)
                         blog_id := blog_id
                         user_id := u.id } : Like).id)) = db.likes :=
        List.filter_eq_self.mpr (fun a ha => by simpa using hfresh a ha)
      rw [h1]
      simp
    refine ⟨?_, ?_, ?_, ?_⟩
    · rw [e1]; rfl
    · rw [e2]; rfl
    · unfold user_likes
      rw [hl2']
    · intro _
      unfold like_count
      rw [hl1, List.countP_append]
      simp
  | some lk =>
    have hp_lk := List.find?_some hlk
    have hmem := List.mem_of_find?_eq_some hlk
    have e1 := toggle_eval_remove hfind hlk
    obtain ⟨hl1, hb1⟩ := toggled_remove hfind hlk
    have hnomatch : (toggled db blog_id u).likes.find?
        (fun l => l.blog_id = blog_id && l.user_id = u.id) = none := by
      rw [hl1, List.find?_eq_none]
      intro x hx hpx
      have hx' := List.mem_filter.mp hx
      have hxid : x.id ≠ lk.id := by simpa using hx'.2
      have hxne : lk ≠ x := fun hcontra => hxid (by rw [hcontra])
      have h2 := two_le_countP
        (fun l => decide (l.blog_id = blog_id) && decide (l.user_id = u.id))
        hmem hx'.1 hxne hp_lk hpx
      omega
    have hfind₁ : (toggled db blog_id u).blogs.find?
        (fun x => x.id = blog_id) = some blogb := by
      rw [hb1]
      exact hfind
    have e2 := toggle_eval_insert hfind₁ hnomatch
    obtain ⟨hl2, -⟩ := toggled_insert hfind₁ hnomatch
    refine ⟨?_, ?_, ?_, ?_⟩
    · rw [e1]; rfl
    · rw [e2]; rfl
    · unfold user_likes
      rw [hlk, hl2, List.find?_append, hnomatch]
      simp
    · intro hcontra
      unfold user_likes at hcontra
      rw [hlk] at hcontra
      exact absurd hcontra (by simp)

/-- Concrete instance of `toggle_like_involution` on a one-blog store:
toggling twice restores "not liked", and one toggle raises the count. -/
theorem toggle_like_involution_witness :
    ((dbXY.blogs.find? (fun b => b.id = 1)).isSome = true) ∧
    user_likes (toggled (toggled dbXY 1 bob) 1 bob) 1 bob
      = user_likes dbXY 1 bob ∧
    like_count (toggled dbXY 1 bob) 1 = like_count dbXY 1 + 1 :=
  ⟨by decide,
   (toggle_like_involution dbXY 1 bob (by decide) (by decide)).2.2.1,
   (toggle_like_involution dbXY 1 bob (by decide) (by decide)).2.2.2 (by decide)⟩
